import Mathlib

/-!
Verification of the linkedin-scraper profile-extraction engine.

This file gives a shallow embedding, in Lean, of the core functions of the
repository (src/scraper/utils.py, src/scraper/linkedin_scraper.py,
src/scraper/linkedin_sync_scraper.py, src/scraper/selenium_scraper.py) and
proves properties of the embedded code.  The browser DOM seen through the
driver is modelled as an oracle: a function from selector strings to the
text responses the page gives for them; library calls that merely pause,
scroll or take screenshots have no observable effect on the extracted data
and are dropped.  Machine reals from time.time() are modelled as rationals.
-/

/-! ## Basic string helpers -/

/-- Substring occurrence on character lists: the pattern is a prefix of
some suffix of the subject. -/
def containsSub (l pat : List Char) : Bool :=
  match l with
  | [] => pat.isEmpty
  | c :: rest => pat.isPrefixOf (c :: rest) || containsSub rest pat

/-- Substring test, modelling the Python expression `pat in s`. -/
def containsStr (s pat : String) : Bool :=
  containsSub s.toList pat.toList

/-- Whitespace class of Python str.strip. -/
def isPySpace (c : Char) : Bool :=
  c == ' ' || c == '\t' || c == '\n' || c == '\r' || c == '\x0b' || c == '\x0c'

/-- Models Python str.strip(): drop leading and trailing whitespace. -/
def pyStrip (s : String) : String :=
  String.mk (((s.toList.dropWhile isPySpace).reverse.dropWhile isPySpace).reverse)

/-- Models Python str.lower(). -/
def pyLower (s : String) : String :=
  String.mk (s.toList.map Char.toLower)

/-! ## utils.py: extract_profile_id

Embeds `re.search(r'linkedin\.com/in/([^/]+)', profile_url)` followed by
`match.group(1)` when the pattern matches and the unchanged input otherwise.
The regular expression is a literal marker `linkedin.com/in/` followed by a
greedy non-empty run of characters other than `/`; `re.search` tries the
pattern at each start position from the left and succeeds at the first
position where both parts match. -/

/-- Literal part of the pattern, as a character list. -/
def marker : List Char := "linkedin.com/in/".toList

/-- Greedy capture `[^/]+` taken right after the marker, at the start of
the given suffix of the subject string. -/
def segAfter (l : List Char) : List Char :=
  (l.drop marker.length).takeWhile (fun c => c != '/')

/-- Left-to-right scan of `re.search`: at each position the match succeeds
iff the marker is a prefix there and the greedy capture is non-empty. -/
def searchFrom : List Char → Option (List Char)
  | [] => none
  | c :: rest =>
    if marker.isPrefixOf (c :: rest) && !(segAfter (c :: rest)).isEmpty then
      some (segAfter (c :: rest))
    else searchFrom rest

/-- Embeds utils.extract_profile_id: the first captured group when the
pattern matches somewhere, the whole input otherwise.  (The try/except
around the body can never fire: the search itself is total.) -/
def extract_profile_id (profile_url : String) : String :=
  match searchFrom profile_url.toList with
  | some seg => String.mk seg
  | none => profile_url

/-- Declarative statement that the regex pattern matches at position `p` of
the subject: the literal marker starts there and at least one non-slash
character follows it. -/
def MatchAt (l : List Char) (p : Nat) : Prop :=
  marker.isPrefixOf (l.drop p) = true ∧ segAfter (l.drop p) ≠ []

instance (l : List Char) (p : Nat) : Decidable (MatchAt l p) :=
  inferInstanceAs (Decidable (_ ∧ _))

/-! ## utils.py: rate_limit_check -/

/-- Python dict assignment `cache[key] = v` on an association list:
replace the first binding of the key, or append a fresh one. -/
def dict_set (cache : List (String × Rat)) (key : String) (v : Rat) :
    List (String × Rat) :=
  match cache with
  | [] => [(key, v)]
  | (k, w) :: rest =>
    if k = key then (key, v) :: rest else (k, w) :: dict_set rest key v

/-- Embeds utils.rate_limit_check.  The cache is an association list from
keys to timestamps; the current time is passed explicitly (the Python code
reads it from time.time()).  Returns the rate-limited flag together with
the cache as left by the call. -/
def rate_limit_check (cache : List (String × Rat)) (key : String)
    (min_interval_seconds : Rat) (current_time : Rat) :
    Bool × List (String × Rat) :=
  let last_time := (cache.lookup key).getD 0
  if current_time - last_time < min_interval_seconds then
    (true, cache)
  else
    (false, dict_set cache key current_time)

/-! ## Login cascade

Embeds LinkedInScraper.login of src/scraper/linkedin_scraper.py (post-submit
outcome evaluation, lines 116-167), LinkedInSyncScraper.login of
src/scraper/linkedin_sync_scraper.py and LinkedInSeleniumScraper.login of
src/scraper/selenium_scraper.py.  The page reached after submitting the
form is modelled by an oracle `present : String → Bool` saying which
selector/text signals the page exposes (wait_for_selector succeeding within
its timeout, locator(...).count() > 0 and query_selector(...) finding an
element all observe exactly this), together with the current URL.  The log
output of each login function is collected as a list of the logger message
strings, in emission order. -/

/-- Outcome of a login call: the async login returns True, returns False,
or raises the security-verification exception. -/
inductive LoginResult where
  | authenticated
  | rejected
  | challengeRequired
deriving DecidableEq

/-- Result of a login call together with its log output: a returned boolean
or a raised exception message, plus the logger messages emitted. -/
inductive LoginTrace where
  | ok (result : Bool) (logs : List String)
  | raised (message : String) (logs : List String)
deriving DecidableEq

/-- Post-login landmark selectors (success_selectors in the source; the
same list appears in linkedin_scraper.py and linkedin_sync_scraper.py). -/
def success_selectors : List String :=
  [ "div.feed-identity-module"
  , "div.search-global-typeahead"
  , "[data-test-id=\"nav-search-typeahead\"]"
  , "div.global-nav__me" ]

/-- Challenge signals (security_indicators in linkedin_scraper.py). -/
def security_indicators : List String :=
  [ "text=Please verify your account"
  , "text=Let\x27s do a quick security check"
  , "text=Verify"
  , "input#input__phone_verification_pin"
  , "text=Security Verification"
  , "text=verification"
  , "[data-id=\"challenge-picker\"]" ]

/-- Wrong-password signal checked by linkedin_scraper.py. -/
def incorrect_password_signal : String :=
  "text=password you provided must have been incorrect"

/-- Python substring test on the current URL (`"feed" in current_url`). -/
def url_contains (url frag : String) : Bool := containsStr url frag

/-- Embeds LinkedInScraper.login of linkedin_scraper.py from the point
where the submitted form has settled (line 116) onward: first the loop over
the post-login landmark selectors (returns True at the first one that
becomes visible), then the loop over the challenge signals (raises), then
the wrong-password check (returns False), then the URL heuristic.  The
password is a dead parameter there: it is typed into the page but never
interpolated into any logger message. -/
def async_login (present : String → Bool) (url : String)
    (email _password : String) : LoginTrace :=
  let logs0 := ["Attempting login for " ++ email]
  match success_selectors.find? present with
  | some sel => .ok true (logs0 ++ ["Login successful, found selector: " ++ sel])
  | none =>
    match security_indicators.find? present with
    | some ind =>
      let msg := "LinkedIn requires security verification. Cannot proceed automatically."
      .raised msg (logs0 ++ ["Security verification required: " ++ ind,
        "Error during login: " ++ msg])
    | none =>
      if present incorrect_password_signal then
        .ok false (logs0 ++ ["Incorrect password"])
      else if url_contains url "feed" || url_contains url "mynetwork" ||
          url_contains url "checkpoint" then
        .ok true (logs0 ++ ["Login appears successful based on URL"])
      else
        .ok false (logs0 ++ ["Login failed, could not verify success"])

/-- The tri-state authentication outcome of the async login: True maps to
Authenticated, False to Rejected, the raised security-verification
exception to ChallengeRequired. -/
def login_outcome (present : String → Bool) (url : String) : LoginResult :=
  match async_login present url "" "" with
  | .ok true _ => .authenticated
  | .ok false _ => .rejected
  | .raised _ _ => .challengeRequired

/-- Embeds LinkedInSyncScraper.login of linkedin_sync_scraper.py from the
post-submit point: landmark loop via query_selector, then the URL check
(this variant has no challenge or wrong-password check). -/
def sync_login (present : String → Bool) (url : String)
    (email _password : String) : Bool × List String :=
  let logs0 := ["Attempting login for " ++ email]
  match success_selectors.find? present with
  | some sel => (true, logs0 ++ ["Login successful, found selector: " ++ sel])
  | none =>
    if url_contains url "feed" || url_contains url "mynetwork" then
      (true, logs0)
    else (false, logs0)

/-- Embeds LinkedInSeleniumScraper.login of selenium_scraper.py from the
post-submit point: purely URL-driven; `url_after` is the URL right after
submitting and `url_after_wait` the URL after the 30-second manual-
interaction wait taken in the non-headless checkpoint branch. -/
def selenium_login (headless : Bool) (url_after url_after_wait : String)
    (email _password : String) : Bool × List String :=
  let logs0 := ["Attempting login for " ++ email]
  if url_contains url_after "/login" then
    (false, logs0 ++ ["Still on login page, login failed"])
  else if url_contains url_after "checkpoint" ||
      url_contains url_after "security" then
    let logs1 := logs0 ++ ["Security checkpoint detected. Manual interaction needed."]
    if !headless then
      if !(url_contains url_after_wait "checkpoint") &&
          !(url_contains url_after_wait "security") then (true, logs1)
      else (false, logs1)
    else (false, logs1)
  else
    (true, logs0 ++ ["Login successful, current URL: " ++ url_after])

/-! ## Field extractors: locator-strategy chains

The DOM is modelled by an oracle `dom : String → Option String`: for a
selector, the text content of the first matching element, or none when no
element matches. -/

/-- Embeds LinkedInSeleniumScraper.get_text_safely of selenium_scraper.py:
the stripped text of the first element matching the selector, the empty
string when no element matches or any lookup error occurs. -/
def get_text_safely (dom : String → Option String) (selector : String) :
    String :=
  match dom selector with
  | some t => pyStrip t
  | none => ""

/-- Instrumented run of one locator-strategy chain, embedding the loop
`for selector in selectors: v = get_text_safely(selector); if v: return v`
of extract_headline and extract_location (selenium_scraper.py): returns the
field value together with how many strategies were evaluated before the
loop stopped. -/
def run_strategy_chain (dom : String → Option String) :
    List String → String × Nat
  | [] => ("", 0)
  | sel :: rest =>
    if get_text_safely dom sel = "" then
      ((run_strategy_chain dom rest).1, (run_strategy_chain dom rest).2 + 1)
    else (get_text_safely dom sel, 1)

/-- Strategy chain of extract_headline (headline_selectors in the source). -/
def headline_selectors : List String :=
  [ "div.text-body-medium"
  , ".pv-text-details__left-panel .text-body-medium"
  , ".ph5 .mt2"
  , ".pv-top-card-section__headline"
  , ".pv-text-details__left-panel h2" ]

/-- Embeds LinkedInSeleniumScraper.extract_headline: run the headline
strategy chain, empty string if all strategies fail. -/
def extract_headline (dom : String → Option String) : String :=
  (run_strategy_chain dom headline_selectors).1

/-- Concrete DOM fixture: only the third headline strategy matches, with
whitespace around the element text. -/
def fixture_dom : String → Option String :=
  fun sel => if sel = ".ph5 .mt2" then some "  Engineer at Acme " else none

/-! ## Field extractors: experience and current company -/

/-- Observable outcome of the three per-item sub-chains run for one
experience list item by LinkedInSeleniumScraper.extract_experience: the
stripped title, company and dates texts, the empty string when every
selector of that sub-chain failed (the code initialises all three to the
empty string and leaves them so on failure). -/
structure ExpJob where
  title : String
  company : String
  dates : String
deriving DecidableEq

/-- Embeds the item loop of LinkedInSeleniumScraper.extract_experience
(selenium_scraper.py lines 444-481): enumerate the section list items,
stop after the fifth, keep an item exactly when its title or company text
is non-empty; kept entries preserve the DOM order. -/
def extract_experience (items : List ExpJob) : List ExpJob :=
  (items.take 5).filter (fun j => !(j.title == "") || !(j.company == ""))

/-- Observable outcome for one experience item of the async scraper
(linkedin_scraper.py lines 380-422): the company and title dict keys are
set only when the corresponding sub-chain produced truthy text, so they
are options. -/
structure AsyncExpData where
  company : Option String
  title : Option String
deriving DecidableEq

/-- Embeds the item loop of the experience block of
LinkedInScraper._extract_profile_data (linkedin_scraper.py lines 373-427):
`for item in items[:5]` with an item kept exactly when its dict has a
company or a title key. -/
def async_experiences (items : List AsyncExpData) : List AsyncExpData :=
  (items.take 5).filter (fun d => d.company.isSome || d.title.isSome)

/-- Current-company record {name, title}. -/
structure CompanyRec where
  name : String
  title : String
deriving DecidableEq

/-- XPath used by the direct branch of extract_current_company. -/
def current_company_direct_xpath : String :=
  "//section[.//span[contains(text(), \x27Experience\x27)]]//li[1]//span[contains(@class, \x27hoverable-link-text\x27)]"

/-- Embeds LinkedInSeleniumScraper.extract_current_company
(selenium_scraper.py lines 749-777): when the experience list is non-empty
the first entry is used unconditionally (entries built by
extract_experience always carry both dict keys, so the key-presence check
holds); with no experiences, a direct DOM lookup is attempted.  No branch
inspects the dates string or parses the headline. -/
def extract_current_company (dom : String → Option String)
    (experiences : List ExpJob) : Option CompanyRec :=
  match experiences with
  | first_exp :: _ =>
    some { name := first_exp.company, title := first_exp.title }
  | [] =>
    match dom current_company_direct_xpath with
    | some t =>
      some { name := pyStrip t
           , title := get_text_safely dom "div.text-body-medium" }
    | none => none

/-- Embeds the current-company assignment of
LinkedInScraper._extract_profile_data (linkedin_scraper.py lines 434-439):
name and company of the first experience entry with empty-string defaults;
the key is only written when the experience list is non-empty. -/
def async_current_company (experiences : List AsyncExpData) :
    Option CompanyRec :=
  match experiences with
  | e :: _ => some { name := e.company.getD "", title := e.title.getD "" }
  | [] => none

/-- Fixture list of eight synthetic experience items. -/
def items8 : List ExpJob :=
  [ ⟨"T1", "C1", "D1"⟩, ⟨"T2", "C2", "D2"⟩, ⟨"T3", "C3", "D3"⟩
  , ⟨"T4", "C4", "D4"⟩, ⟨"T5", "C5", "D5"⟩, ⟨"T6", "C6", "D6"⟩
  , ⟨"T7", "C7", "D7"⟩, ⟨"T8", "C8", "D8"⟩ ]

/-! ## Field extractors: skills

Embeds LinkedInSeleniumScraper.extract_skills of selenium_scraper.py
(lines 674-747).  The best-effort expansion click at the top of the
function is a swallowed side effect with no bearing on the returned data
and is dropped. -/

/-- Deduplicating append of the skill loop: the stripped element text is
appended when truthy and not already collected (`if skill_text and
skill_text not in skills`). -/
def add_unique (acc : List String) (t : String) : List String :=
  if !(t == "") && !(acc.contains t) then acc ++ [t] else acc

/-- Section xpaths tried by extract_skills, in order. -/
def skill_section_xpaths : List String :=
  [ "//section[.//div[contains(text(), \x27Skills\x27)]]"
  , "//section[contains(@class, \x27skills-section\x27)]"
  , "//section[contains(@id, \x27skills-section\x27)]"
  , "//div[contains(@class, \x27pv-skill-categories-section\x27)]" ]

/-- Per-section skill item selectors tried in order. -/
def skill_selectors : List String :=
  [ ".//span[contains(@class, \x27pv-skill-category-entity__name-text\x27)]"
  , ".//span[contains(@class, \x27pvs-entity__primary-text\x27)]"
  , ".//li//span[contains(@class, \x27text-body-small\x27)]" ]

/-- Common-skill keywords of the page-source fallback. -/
def common_skills : List String :=
  [ "javascript", "python", "java", "c++", "react", "angular", "node.js"
  , "aws", "azure", "cloud", "docker", "kubernetes", "devops", "agile"
  , "product management", "leadership", "project management", "sql"
  , "mongodb", "database", "machine learning", "data science" ]

/-- Page model for extract_skills: which section xpaths resolve to a
section (none models NoSuchElementException), the element texts each
resolved section returns for each item selector, and the serialized page
source. -/
structure SkillsPage where
  sections : String → Option (String → List String)
  page_source : String

/-- Inner selector loop over one resolved skills section: the stripped
texts of a selector are folded through the deduplicating append, and the
loop breaks at the first selector that collected anything.  The
accumulated list is always empty when a new selector is tried, because the
source breaks out of the loop as soon as it is non-empty. -/
def section_scan (sec : String → List String) : List String → List String
  | [] => []
  | sel :: rest =>
    if ((sec sel).map pyStrip).foldl add_unique [] = [] then
      section_scan sec rest
    else ((sec sel).map pyStrip).foldl add_unique []

/-- Outer xpath loop of extract_skills: absent sections are skipped
(NoSuchElementException is caught and the loop continues); the loop breaks
at the first section whose scan collected anything. -/
def xpath_scan (sp : SkillsPage) : List String → List String
  | [] => []
  | xp :: rest =>
    match sp.sections xp with
    | none => xpath_scan sp rest
    | some sec =>
      if section_scan sec skill_selectors = [] then xpath_scan sp rest
      else section_scan sec skill_selectors

/-- Page-source fallback of extract_skills: scan the lowered page source
for each common skill wrapped in one of its two skill-context patterns. -/
def source_fallback (src : String) : List String :=
  common_skills.foldl
    (fun acc skill =>
      if containsStr src ("skill\x22>" ++ skill) ||
          containsStr src (">" ++ skill ++ "</span") then
        if !(acc.contains skill) then acc ++ [skill] else acc
      else acc) []

/-- Embeds LinkedInSeleniumScraper.extract_skills: UI scan over the
section xpaths first; when it found nothing, the page-source fallback. -/
def extract_skills (sp : SkillsPage) : List String :=
  if xpath_scan sp skill_section_xpaths = [] then
    source_fallback (pyLower sp.page_source)
  else xpath_scan sp skill_section_xpaths

/-- Two views of the same, unchanged page across two extractor calls: the
same xpaths resolve to sections, every resolved section returns the same
multiset of element texts for every item selector (the order in which the
driver enumerates matching elements may differ between the calls), and the
serialized page source is identical. -/
def UnchangedPage (v1 v2 : SkillsPage) : Prop :=
  v1.page_source = v2.page_source ∧
  (∀ xp, (v1.sections xp).isSome ↔ (v2.sections xp).isSome) ∧
  ∀ xp s1 s2, v1.sections xp = some s1 → v2.sections xp = some s2 →
    ∀ sel, List.Perm (s1 sel) (s2 sel)

/-- Concrete skills-page fixtures: the same two skill element texts, in
different enumeration order across the two calls. -/
def fixture_skills_page1 : SkillsPage :=
  { sections := fun _ => some (fun _ => [" Python", "SQL "])
  , page_source := "<html></html>" }

/-- Companion fixture with the element order reversed. -/
def fixture_skills_page2 : SkillsPage :=
  { sections := fun _ => some (fun _ => ["SQL ", " Python"])
  , page_source := "<html></html>" }

/-! ## Profile assembly: the extraction passes

Embeds LinkedInSyncScraper._extract_profile_data of
linkedin_sync_scraper.py (lines 151-273) and the shape of
LinkedInScraper._extract_profile_data of linkedin_scraper.py (lines
233-623).  The sync page is modelled by the outcomes of the queries the
method makes: for each single-element query_selector call the text of the
found element (none when no element matches), and for the list queries the
per-item outcomes. -/

/-- First experience list item of the sync pass: outcomes of its company
and title element queries. -/
structure SyncExpFirst where
  company_el : Option String
  title_el : Option String
deriving DecidableEq

/-- One education list item of the sync pass: outcomes of its school and
degree element queries. -/
structure SyncEduItem where
  school_el : Option String
  degree_el : Option String
deriving DecidableEq

/-- Query outcomes of one sync extraction pass.  A none section models a
page on which that section is entirely absent; about_section and
exp_section nest the inner element query of a found section. -/
structure SyncPage where
  name_el : Option String
  title_el : Option String
  location_el : Option String
  about_section : Option (Option String)
  exp_section : Option (Option SyncExpFirst)
  edu_section : Option (List SyncEduItem)
  skills_section : Option (List String)
deriving DecidableEq

/-- Education record {school, degree}. -/
structure EduRec where
  school : String
  degree : String
deriving DecidableEq

/-- The profile_data dict of the sync pass: a key absent from the dict is
a none field. -/
structure SyncProfileData where
  name : Option String
  title : Option String
  location : Option String
  introduction : Option String
  current_company : Option CompanyRec
  education : Option (List EduRec)
  skills : Option (List String)
deriving DecidableEq

/-- Name block of the sync pass (try/except around one query). -/
def sync_name (page : SyncPage) : Option String := page.name_el.map pyStrip

/-- Title block of the sync pass. -/
def sync_title (page : SyncPage) : Option String := page.title_el.map pyStrip

/-- Location block of the sync pass. -/
def sync_location (page : SyncPage) : Option String :=
  page.location_el.map pyStrip

/-- About block of the sync pass: needs the section and, within it, the
text element; otherwise the introduction key is never written. -/
def sync_introduction (page : SyncPage) : Option String :=
  page.about_section.bind (fun ab => ab.map pyStrip)

/-- Current-company block of the sync pass: needs the Experience section
and its first list item; company and title elements each default to the
empty string when absent. -/
def sync_current_company (page : SyncPage) : Option CompanyRec :=
  page.exp_section.bind (fun li => li.map (fun fe =>
    { name := (fe.company_el.map pyStrip).getD ""
    , title := (fe.title_el.map pyStrip).getD "" }))

/-- One education entry of the sync pass: kept only when the school
element was found; the degree defaults to the empty string. -/
def sync_edu_entry (it : SyncEduItem) : Option EduRec :=
  it.school_el.map (fun s =>
    { school := pyStrip s, degree := (it.degree_el.map pyStrip).getD "" })

/-- Education block of the sync pass: the key is written only when the
section was found and at least one item had a school element. -/
def sync_education (page : SyncPage) : Option (List EduRec) :=
  match page.edu_section with
  | none => none
  | some items =>
    match items.filterMap sync_edu_entry with
    | [] => none
    | e :: es => some (e :: es)

/-- Skills block of the sync pass: stripped element texts of the on-page
section, kept when truthy and free of the word skill in lower case.  When
nothing is collected (section absent or everything filtered out) the
fallback branch evaluates the name profile_url, which is not bound in the
method scope; the resulting NameError is swallowed by the except of the
block, so the skills key is simply never written.  The Python set() built
from the collected list is modelled by dedup keeping first occurrences. -/
def sync_skills (page : SyncPage) : Option (List String) :=
  match page.skills_section with
  | none => none
  | some texts =>
    match texts.filterMap (fun t =>
        if !(pyStrip t == "") && !(containsStr (pyLower (pyStrip t)) "skill")
        then some (pyStrip t) else none) with
    | [] => none
    | s :: ss => some ((s :: ss).dedup)

/-- Embeds LinkedInSyncScraper._extract_profile_data: the blocks run in
sequence over one dict; every block is wrapped in its own try/except pass,
so no block can abort the pass or disturb another block, and the method
always returns the dict. -/
def sync_extract_profile_data (page : SyncPage) : SyncProfileData :=
  { name := sync_name page
  , title := sync_title page
  , location := sync_location page
  , introduction := sync_introduction page
  , current_company := sync_current_company page
  , education := sync_education page
  , skills := sync_skills page }

/-- Python runtime error raised by evaluating an unbound name. -/
inductive PyError where
  | nameError (name : String)
deriving DecidableEq

/-- The profile_data dict assembled by the try-wrapped field blocks of the
async pass (linkedin_scraper.py lines 236-618). -/
structure AsyncProfileData where
  name : Option String
  title : Option String
  location : Option String
  introduction : Option String
  experiences : Option (List AsyncExpData)
  current_company : Option CompanyRec
  education : Option (List EduRec)
  skills : Option (List String)
deriving DecidableEq

/-- Embeds LinkedInScraper._extract_profile_data of linkedin_scraper.py
(lines 233-623).  The field blocks (lines 242-618) are each wrapped in
try/except and cannot propagate; the dict they assemble is taken here as
the argument.  After the last block, line 621 executes
page.goto(profile_url, ...) outside any try block, and profile_url is not
bound in the method scope — it is a local variable of scrape_profile, not
a parameter, an attribute or a module global — so the statement raises
NameError and the method never returns the dict, whatever the page held. -/
def async_extract_profile_data (_data : AsyncProfileData) :
    Except PyError AsyncProfileData :=
  Except.error (PyError.nameError "profile_url")

/-- Fixture page with every section present. -/
def fixture_page_with_about : SyncPage :=
  { name_el := some "Jane Doe "
  , title_el := some " Engineer at Acme"
  , location_el := some "Berlin"
  , about_section := some (some " Bio text ")
  , exp_section := some (some ⟨some "Acme ", some " Engineer"⟩)
  , edu_section := some [⟨some " MIT", some "BSc "⟩]
  , skills_section := some ["Python ", " SQL", "Top skills"] }

/-- The same fixture page with the About section entirely absent. -/
def fixture_page_no_about : SyncPage :=
  { fixture_page_with_about with about_section := none }

/-- Fixture value for the dict assembled by the async field blocks. -/
def fixture_async_data : AsyncProfileData :=
  { name := some "Jane Doe", title := none, location := none
  , introduction := none, experiences := none, current_company := none
  , education := none, skills := none }

/-! ## Session teardown

Embeds the three close methods.  A resource handle is an Option Bool:
none when the attribute was never set by initialize, some true while the
resource is live, some false once released.  The driver-library teardown
calls are modelled by their documented contracts: Playwright
Browser.close() and Playwright.stop() release and are no-ops when already
released; Selenium driver.quit() tears the process down and is called
inside try/except pass, so close returns normally regardless. -/

/-- Browser and playwright handles of LinkedInScraper. -/
structure AsyncScraperState where
  browser : Option Bool
  playwright : Option Bool
deriving DecidableEq

/-- Embeds LinkedInScraper.close (linkedin_scraper.py 625-631): close the
browser when the attribute is set, stop playwright when the attribute
exists (hasattr check). -/
def async_close (s : AsyncScraperState) : AsyncScraperState :=
  { browser := s.browser.map (fun _ => false)
  , playwright := s.playwright.map (fun _ => false) }

/-- Browser and playwright handles of LinkedInSyncScraper. -/
structure SyncScraperState where
  browser : Option Bool
  playwright : Option Bool
deriving DecidableEq

/-- Embeds LinkedInSyncScraper.close (linkedin_sync_scraper.py 275-281):
both attributes are initialised to None in the constructor and guarded by
truthiness checks. -/
def sync_close (s : SyncScraperState) : SyncScraperState :=
  { browser := s.browser.map (fun _ => false)
  , playwright := s.playwright.map (fun _ => false) }

/-- Embeds LinkedInSeleniumScraper.close (selenium_scraper.py 906-913):
quit the driver when set, any exception from quit swallowed by the bare
except. -/
def selenium_close (driver : Option Bool) : Option Bool :=
  driver.map (fun _ => false)

/-! ## Theorems -/

theorem mk_ne_empty (s : List Char) (h : s ≠ []) : String.mk s ≠ "" := by
  intro hEq
  exact h (congrArg String.data hEq)

theorem searchFrom_some_spec :
    ∀ (l s : List Char), searchFrom l = some s →
      ∃ p, MatchAt l p ∧ (∀ q, q < p → ¬ MatchAt l q) ∧
        s = segAfter (l.drop p) := by
  intro l
  induction l with
  | nil => intro s h; simp [searchFrom] at h
  | cons c rest ih =>
    intro s h
    by_cases hc : marker.isPrefixOf (c :: rest) && !(segAfter (c :: rest)).isEmpty
    · rw [searchFrom, if_pos hc] at h
      obtain ⟨h1, h2⟩ := Bool.and_eq_true .. |>.mp hc
      refine ⟨0, ⟨h1, ?_⟩, fun q hq => absurd hq (Nat.not_lt_zero q), ?_⟩
      · simpa using h2
      · simpa using h.symm
    · rw [searchFrom, if_neg hc] at h
      obtain ⟨p, hp, hmin, hs⟩ := ih s h
      refine ⟨p + 1, ?_, ?_, ?_⟩
      · simpa [MatchAt, List.drop_succ_cons] using hp
      · intro q hq
        match q with
        | 0 =>
          intro ⟨m1, m2⟩
          simp only [List.drop_zero] at m1 m2
          exact hc (by simp [m1, List.isEmpty_iff, m2])
        | q' + 1 =>
          intro hm
          exact hmin q' (Nat.lt_of_succ_lt_succ hq)
            (by simpa [MatchAt, List.drop_succ_cons] using hm)
      · simpa [List.drop_succ_cons] using hs

theorem searchFrom_none_spec :
    ∀ (l : List Char), searchFrom l = none → ∀ p, ¬ MatchAt l p := by
  intro l
  induction l with
  | nil =>
    intro _ p hm
    obtain ⟨m1, _⟩ := hm
    simp [marker, List.isPrefixOf] at m1
  | cons c rest ih =>
    intro h p
    by_cases hc : marker.isPrefixOf (c :: rest) && !(segAfter (c :: rest)).isEmpty
    · rw [searchFrom, if_pos hc] at h; exact absurd h (by simp)
    · rw [searchFrom, if_neg hc] at h
      match p with
      | 0 =>
        intro ⟨m1, m2⟩
        simp only [List.drop_zero] at m1 m2
        exact hc (by simp [m1, List.isEmpty_iff, m2])
      | p' + 1 =>
        intro hm
        exact ih h p' (by simpa [MatchAt, List.drop_succ_cons] using hm)

/-- C9: extract_profile_id is total and never raises; on every input string
in which the pattern `linkedin.com/in/<segment>` occurs (marker followed by
at least one non-slash character) it returns the segment at the first such
occurrence, i.e. the text up to the next slash; on every other string it
returns the input unchanged; hence the result is non-empty whenever the
input is non-empty. -/
theorem c9_extract_profile_id_spec (url : String) :
    ((∃ p, MatchAt url.toList p) →
      ∃ p, MatchAt url.toList p ∧ (∀ q, q < p → ¬ MatchAt url.toList q) ∧
        extract_profile_id url = String.mk (segAfter (url.toList.drop p)) ∧
        segAfter (url.toList.drop p) ≠ []) ∧
    ((¬ ∃ p, MatchAt url.toList p) → extract_profile_id url = url) ∧
    (url ≠ "" → extract_profile_id url ≠ "") := by
  cases h : searchFrom url.toList with
  | some s =>
    obtain ⟨p, hp, hmin, hs⟩ := searchFrom_some_spec url.toList s h
    have hext : extract_profile_id url = String.mk s := by
      unfold extract_profile_id
      rw [h]
    refine ⟨fun _ => ⟨p, hp, hmin, by rw [hext, hs], hp.2⟩, ?_, ?_⟩
    · intro hno; exact absurd ⟨p, hp⟩ hno
    · intro _
      rw [hext]
      exact mk_ne_empty s (hs ▸ hp.2)
  | none =>
    have hnone := searchFrom_none_spec url.toList h
    have hext : extract_profile_id url = url := by
      unfold extract_profile_id
      rw [h]
    exact ⟨fun ⟨p, hp⟩ => absurd hp (hnone p), fun _ => hext,
      fun hne => by rw [hext]; exact hne⟩

theorem c9_extract_profile_id_spec_witness :
    (∃ p, MatchAt "https://www.linkedin.com/in/johndoe/details/".toList p) ∧
    (∃ p, MatchAt "https://www.linkedin.com/in/johndoe/details/".toList p ∧
      (∀ q, q < p →
        ¬ MatchAt "https://www.linkedin.com/in/johndoe/details/".toList q) ∧
      extract_profile_id "https://www.linkedin.com/in/johndoe/details/" =
        String.mk
          (segAfter ("https://www.linkedin.com/in/johndoe/details/".toList.drop p)) ∧
      segAfter ("https://www.linkedin.com/in/johndoe/details/".toList.drop p) ≠ []) := by
  have h := (c9_extract_profile_id_spec "https://www.linkedin.com/in/johndoe/details/").1
  have hex : ∃ p, MatchAt "https://www.linkedin.com/in/johndoe/details/".toList p :=
    ⟨12, by decide⟩
  exact ⟨hex, h hex⟩

/-- C10: rate_limit_check returns true and leaves the cache unchanged
exactly when the stored timestamp for the key (0 when absent) is less than
min_interval_seconds before the current time; otherwise it returns false
and writes the current time for the key; in particular the first call for a
key not yet cached is never rate-limited once the current time is at least
min_interval_seconds. -/
theorem c10_rate_limit_check_spec (cache : List (String × Rat)) (key : String)
    (min_interval_seconds current_time : Rat) :
    (rate_limit_check cache key min_interval_seconds current_time =
        (true, cache) ↔
      current_time - ((cache.lookup key).getD 0) < min_interval_seconds) ∧
    (¬ current_time - ((cache.lookup key).getD 0) < min_interval_seconds →
      rate_limit_check cache key min_interval_seconds current_time =
        (false, dict_set cache key current_time)) ∧
    (cache.lookup key = none → min_interval_seconds ≤ current_time →
      (rate_limit_check cache key min_interval_seconds current_time).1 =
        false) := by
  refine ⟨⟨?_, ?_⟩, ?_, ?_⟩
  · intro h
    by_contra hlt
    simp [rate_limit_check, if_neg hlt] at h
  · intro hlt
    simp [rate_limit_check, if_pos hlt]
  · intro hlt
    simp [rate_limit_check, if_neg hlt]
  · intro habs hge
    have hlt : ¬ current_time - ((cache.lookup key).getD 0) <
        min_interval_seconds := by
      rw [habs]
      simp only [Option.getD_none, sub_zero, not_lt]
      exact hge
    simp [rate_limit_check, if_neg hlt]

theorem c10_rate_limit_check_spec_witness :
    ([] : List (String × Rat)).lookup "johndoe" = none ∧
    (300 : Rat) ≤ 1000 ∧
    (rate_limit_check [] "johndoe" 300 1000).1 = false := by
  refine ⟨rfl, by norm_num, ?_⟩
  exact (c10_rate_limit_check_spec [] "johndoe" 300 1000).2.2 rfl (by norm_num)

theorem c2_counterexample :
    ("div.feed-identity-module" ∈ success_selectors) ∧
    ("text=Verify" ∈ security_indicators) ∧
    login_outcome
      (fun s => s == "div.feed-identity-module" || s == "text=Verify")
      "https://www.linkedin.com/feed/" = LoginResult.authenticated ∧
    LoginResult.authenticated ≠ LoginResult.challengeRequired := by
  refine ⟨by decide, by decide, by decide, by decide⟩

/-- C2 (amended): for every post-submit page state in which a valid
post-login landmark selector is present — in particular when a challenge
signal from the fixed list is present as well — login yields Authenticated,
not ChallengeRequired: the post-login landmark check is decided before the
challenge check, which runs only when no landmark matched. -/
theorem c2_login_landmark_priority (present : String → Bool) (url : String)
    (hland : success_selectors.any present = true)
    (_hchal : security_indicators.any present = true) :
    login_outcome present url = LoginResult.authenticated := by
  have h1 : ∃ x, x ∈ success_selectors ∧ present x = true := by
    simpa using List.any_eq_true.mp hland
  have h2 : (success_selectors.find? present).isSome :=
    List.find?_isSome.mpr h1
  obtain ⟨sel, hsel⟩ := Option.isSome_iff_exists.mp h2
  simp [login_outcome, async_login, hsel]

theorem c2_login_landmark_priority_witness :
    success_selectors.any
      (fun s => s == "div.global-nav__me" || s == "text=verification") = true ∧
    security_indicators.any
      (fun s => s == "div.global-nav__me" || s == "text=verification") = true ∧
    login_outcome
      (fun s => s == "div.global-nav__me" || s == "text=verification")
      "https://www.linkedin.com/checkpoint/challenge/" =
      LoginResult.authenticated :=
  ⟨by decide, by decide,
    c2_login_landmark_priority
      (fun s => s == "div.global-nav__me" || s == "text=verification")
      "https://www.linkedin.com/checkpoint/challenge/"
      (by decide) (by decide)⟩

theorem c7_counterexample :
    "Attempting login for alice@example.com" ∈
      (sync_login (fun _ => false) "https://www.linkedin.com/login"
        "alice@example.com" "hunter2").2 ∧
    containsStr "Attempting login for alice@example.com"
      "alice@example.com" = true := by
  refine ⟨by decide, by decide⟩

/-- C7 (amended): the secret never reaches the log output — every login
variant emits exactly the same logs and outcome for any two secrets, i.e.
the logs are independent of the secret — but the identifier is logged in
cleartext: the first log line of each login call interpolates the email
address. -/
theorem c7_secret_never_logged (present : String → Bool)
    (url url_after url_after_wait : String) (headless : Bool)
    (email pw1 pw2 : String) :
    sync_login present url email pw1 = sync_login present url email pw2 ∧
    async_login present url email pw1 = async_login present url email pw2 ∧
    selenium_login headless url_after url_after_wait email pw1 =
      selenium_login headless url_after url_after_wait email pw2 ∧
    (sync_login present url email pw1).2.head? =
      some ("Attempting login for " ++ email) := by
  refine ⟨rfl, rfl, rfl, ?_⟩
  unfold sync_login
  cases h : success_selectors.find? present with
  | some sel => simp [h]
  | none => simp only [h]; split <;> simp

/-- C5: strategy-chain short-circuit: for every locator-strategy chain and
every DOM oracle, if strategy i yields non-empty text then no strategy
beyond i is evaluated (at most i+1 strategies run), and the value produced
by the chain equals the stripped text of the first strategy yielding
non-empty text. -/
theorem c5_strategy_chain_short_circuit (dom : String → Option String)
    (chain : List String) (i : Nat) (h : i < chain.length)
    (hne : get_text_safely dom (chain.get ⟨i, h⟩) ≠ "") :
    (run_strategy_chain dom chain).2 ≤ i + 1 ∧
    ∃ j, ∃ hj : j < chain.length, j ≤ i ∧
      (∀ k, ∀ hk : k < chain.length, k < j →
        get_text_safely dom (chain.get ⟨k, hk⟩) = "") ∧
      get_text_safely dom (chain.get ⟨j, hj⟩) ≠ "" ∧
      (run_strategy_chain dom chain).1 =
        get_text_safely dom (chain.get ⟨j, hj⟩) := by
  induction chain generalizing i with
  | nil => exact absurd h (Nat.not_lt_zero i)
  | cons sel rest ih =>
    by_cases hsel : get_text_safely dom sel = ""
    · match i with
      | 0 => exact absurd hsel hne
      | i' + 1 =>
        have h' : i' < rest.length := Nat.lt_of_succ_lt_succ h
        have hne' : get_text_safely dom (rest.get ⟨i', h'⟩) ≠ "" := hne
        obtain ⟨hcount, j, hj, hji, hmin, hjne, hval⟩ := ih i' h' hne'
        constructor
        · show (run_strategy_chain dom (sel :: rest)).2 ≤ i' + 1 + 1
          simp only [run_strategy_chain, if_pos hsel]
          exact Nat.succ_le_succ hcount
        · refine ⟨j + 1, Nat.succ_lt_succ hj, Nat.succ_le_succ hji, ?_, ?_, ?_⟩
          · intro k hk hkj
            match k with
            | 0 => exact hsel
            | k' + 1 =>
              exact hmin k' (Nat.lt_of_succ_lt_succ hk)
                (Nat.lt_of_succ_lt_succ hkj)
          · exact hjne
          · simp only [run_strategy_chain, if_pos hsel]
            exact hval
    · constructor
      · simp only [run_strategy_chain, if_neg hsel]
        exact Nat.succ_le_succ (Nat.zero_le i)
      · refine ⟨0, Nat.succ_pos _, Nat.zero_le i, ?_, ?_, ?_⟩
        · intro k hk hk0; exact absurd hk0 (Nat.not_lt_zero k)
        · exact hsel
        · simp only [run_strategy_chain, if_neg hsel]
          rfl

theorem c5_strategy_chain_short_circuit_witness :
    (2 < headline_selectors.length ∧
      get_text_safely fixture_dom (headline_selectors.get ⟨2, by decide⟩) ≠ "") ∧
    (run_strategy_chain fixture_dom headline_selectors).2 ≤ 2 + 1 ∧
    extract_headline fixture_dom = "Engineer at Acme" :=
  have hlen : 2 < headline_selectors.length := by decide
  have hne : get_text_safely fixture_dom (headline_selectors.get ⟨2, by decide⟩) ≠ "" := by
    decide
  ⟨⟨hlen, hne⟩,
    (c5_strategy_chain_short_circuit fixture_dom headline_selectors 2 hlen hne).1,
    by decide⟩

/-- C4: experience cap and order: whenever every item of the experience
list has a non-empty title or company, the selenium extractor keeps exactly
min(n, 5) entries, namely the first five items in their original DOM order;
the same holds for the async extractor with dict-key presence in place of
non-emptiness. -/
theorem c4_experience_cap_order (items : List ExpJob)
    (hall : ∀ j ∈ items, j.title ≠ "" ∨ j.company ≠ "") :
    (extract_experience items = items.take 5 ∧
      (extract_experience items).length = min items.length 5) ∧
    ∀ (ds : List AsyncExpData), (∀ d ∈ ds, d.company.isSome ∨ d.title.isSome) →
      async_experiences ds = ds.take 5 ∧
      (async_experiences ds).length = min ds.length 5 := by
  constructor
  · have h1 : extract_experience items = items.take 5 := by
      unfold extract_experience
      apply List.filter_eq_self.mpr
      intro j hj
      rcases hall j (List.mem_of_mem_take hj) with h | h <;> simp [h]
    refine ⟨h1, ?_⟩
    rw [h1, List.length_take, Nat.min_comm]
  · intro ds hds
    have h2 : async_experiences ds = ds.take 5 := by
      unfold async_experiences
      apply List.filter_eq_self.mpr
      intro d hd
      rcases hds d (List.mem_of_mem_take hd) with h | h <;> simp [h]
    refine ⟨h2, ?_⟩
    rw [h2, List.length_take, Nat.min_comm]

theorem c4_experience_cap_order_witness :
    (∀ j ∈ items8, j.title ≠ "" ∨ j.company ≠ "") ∧
    extract_experience items8 = items8.take 5 ∧
    (extract_experience items8).length = min items8.length 5 ∧
    extract_experience items8 =
      [ ⟨"T1", "C1", "D1"⟩, ⟨"T2", "C2", "D2"⟩, ⟨"T3", "C3", "D3"⟩
      , ⟨"T4", "C4", "D4"⟩, ⟨"T5", "C5", "D5"⟩ ] :=
  have hall : ∀ j ∈ items8, j.title ≠ "" ∨ j.company ≠ "" := by decide
  ⟨hall, ((c4_experience_cap_order items8 hall).1).1,
    ((c4_experience_cap_order items8 hall).1).2, by decide⟩

theorem c3_counterexample :
    extract_current_company (fun _ => none)
      [{ title := "Dev", company := "OldCo", dates := "2018 - 2020" }] =
      some { name := "OldCo", title := "Dev" } ∧
    (some { name := "OldCo", title := "Dev" } : Option CompanyRec) ≠
      some { name := "Acme", title := "Engineer" } := by
  exact ⟨rfl, by decide⟩

/-- C3 (amended): for every scrape pass producing a non-empty experience
list, current_company is taken from the first experience entry
unconditionally — its company and title (with empty-string defaults in the
async variant) — regardless of whether the dates string of that entry
signals an ongoing position; the headline is never parsed.  The direct DOM
fallback runs only when the experience list is empty. -/
theorem c3_current_company_first_entry (dom : String → Option String)
    (e : ExpJob) (rest : List ExpJob)
    (d : AsyncExpData) (drest : List AsyncExpData) :
    extract_current_company dom (e :: rest) =
      some { name := e.company, title := e.title } ∧
    async_current_company (d :: drest) =
      some { name := d.company.getD "", title := d.title.getD "" } :=
  ⟨rfl, rfl⟩

theorem mem_add_unique (acc : List String) (t a : String) :
    a ∈ add_unique acc t ↔ a ∈ acc ∨ (a = t ∧ t ≠ "") := by
  unfold add_unique
  by_cases h1 : t = ""
  · subst h1; simp
  · by_cases h2 : t ∈ acc
    · have hcond : (!(t == "") && !(acc.contains t)) = false := by simp [h2]
      rw [hcond]
      simp only [Bool.false_eq_true, if_false]
      constructor
      · exact Or.inl
      · rintro (h | ⟨rfl, _⟩)
        · exact h
        · exact h2
    · have hcond : (!(t == "") && !(acc.contains t)) = true := by
        simp [h1, h2]
      rw [hcond]
      simp only [if_true]
      rw [List.mem_append]
      constructor
      · rintro (h | h)
        · exact Or.inl h
        · exact Or.inr ⟨by simpa using h, h1⟩
      · rintro (h | ⟨rfl, _⟩)
        · exact Or.inl h
        · exact Or.inr (by simp)

theorem mem_foldl_add_unique (l : List String) (acc : List String)
    (a : String) :
    a ∈ l.foldl add_unique acc ↔ a ∈ acc ∨ (a ∈ l ∧ a ≠ "") := by
  induction l generalizing acc with
  | nil => simp
  | cons t l ih =>
    rw [List.foldl_cons, ih, mem_add_unique]
    constructor
    · rintro ((h | ⟨rfl, ht⟩) | ⟨hl, ha⟩)
      · exact Or.inl h
      · exact Or.inr ⟨List.mem_cons_self _ _, ht⟩
      · exact Or.inr ⟨List.mem_cons_of_mem _ hl, ha⟩
    · rintro (h | ⟨hm, ha⟩)
      · exact Or.inl (Or.inl h)
      · rcases List.mem_cons.mp hm with rfl | hl
        · exact Or.inl (Or.inr ⟨rfl, ha⟩)
        · exact Or.inr ⟨hl, ha⟩

theorem foldl_add_unique_eq_nil (l : List String) :
    l.foldl add_unique [] = [] ↔ ∀ t ∈ l, t = "" := by
  rw [List.eq_nil_iff_forall_not_mem]
  constructor
  · intro h t ht
    by_contra hne
    exact h t ((mem_foldl_add_unique l [] t).mpr (Or.inr ⟨ht, hne⟩))
  · intro h a ha
    rcases (mem_foldl_add_unique l [] a).mp ha with h0 | ⟨hl, hne⟩
    · simp at h0
    · exact hne (h a hl)

theorem foldl_add_unique_toFinset_perm (l l' : List String)
    (hp : List.Perm l l') :
    (l.foldl add_unique []).toFinset = (l'.foldl add_unique []).toFinset := by
  ext a
  simp [List.mem_toFinset, mem_foldl_add_unique, hp.mem_iff]

theorem section_scan_congr (sec1 sec2 : String → List String)
    (hp : ∀ sel, List.Perm (sec1 sel) (sec2 sel)) (sels : List String) :
    (section_scan sec1 sels = [] ↔ section_scan sec2 sels = []) ∧
    (section_scan sec1 sels).toFinset = (section_scan sec2 sels).toFinset := by
  induction sels with
  | nil => simp [section_scan]
  | cons sel rest ih =>
    have hperm : List.Perm ((sec1 sel).map pyStrip) ((sec2 sel).map pyStrip) :=
      (hp sel).map pyStrip
    have hnil : (((sec1 sel).map pyStrip).foldl add_unique [] = []) ↔
        (((sec2 sel).map pyStrip).foldl add_unique [] = []) := by
      rw [foldl_add_unique_eq_nil, foldl_add_unique_eq_nil]
      constructor <;> intro h t ht
      · exact h t (hperm.mem_iff.mpr ht)
      · exact h t (hperm.mem_iff.mp ht)
    by_cases h1 : ((sec1 sel).map pyStrip).foldl add_unique [] = []
    · have h2 := hnil.mp h1
      simp only [section_scan, if_pos h1, if_pos h2]
      exact ih
    · have h2 : ¬ ((sec2 sel).map pyStrip).foldl add_unique [] = [] :=
        fun hc => h1 (hnil.mpr hc)
      simp only [section_scan, if_neg h1, if_neg h2]
      exact ⟨⟨fun hc => absurd hc h1, fun hc => absurd hc h2⟩,
        foldl_add_unique_toFinset_perm _ _ hperm⟩

theorem xpath_scan_congr (v1 v2 : SkillsPage) (h : UnchangedPage v1 v2)
    (xps : List String) :
    (xpath_scan v1 xps = [] ↔ xpath_scan v2 xps = []) ∧
    (xpath_scan v1 xps).toFinset = (xpath_scan v2 xps).toFinset := by
  obtain ⟨_, hsome, hperm⟩ := h
  induction xps with
  | nil => simp [xpath_scan]
  | cons xp rest ih =>
    cases h1 : v1.sections xp with
    | none =>
      have h2 : v2.sections xp = none := by
        cases h2 : v2.sections xp with
        | none => rfl
        | some s =>
          have := (hsome xp).mpr (by rw [h2]; exact rfl)
          rw [h1] at this
          exact absurd this (by simp)
      simp only [xpath_scan, h1, h2]
      exact ih
    | some sec1 =>
      cases h2 : v2.sections xp with
      | none =>
        have := (hsome xp).mp (by rw [h1]; exact rfl)
        rw [h2] at this
        exact absurd this (by simp)
      | some sec2 =>
        have hp := hperm xp sec1 sec2 h1 h2
        obtain ⟨hn, hf⟩ := section_scan_congr sec1 sec2 hp skill_selectors
        simp only [xpath_scan, h1, h2]
        by_cases hb : section_scan sec1 skill_selectors = []
        · rw [if_pos hb, if_pos (hn.mp hb)]
          exact ih
        · have hb2 : ¬ section_scan sec2 skill_selectors = [] :=
            fun hc => hb (hn.mpr hc)
          rw [if_neg hb, if_neg hb2]
          exact ⟨⟨fun hc => absurd hc hb, fun hc => absurd hc hb2⟩, hf⟩

/-- C6: skills idempotence: two runs of the skills extractor against an
unchanged page — same sections, same multiset of element texts per
selector, same page source, with the enumeration order of elements free to
differ between the runs — produce the same skills when the two result
lists are viewed as deduplicated sets. -/
theorem c6_skills_idempotent (v1 v2 : SkillsPage) (h : UnchangedPage v1 v2) :
    (extract_skills v1).toFinset = (extract_skills v2).toFinset := by
  obtain ⟨hn, hf⟩ := xpath_scan_congr v1 v2 h skill_section_xpaths
  unfold extract_skills
  by_cases hb : xpath_scan v1 skill_section_xpaths = []
  · rw [if_pos hb, if_pos (hn.mp hb), h.1]
  · rw [if_neg hb, if_neg (fun hc => hb (hn.mpr hc))]
    exact hf

theorem c6_skills_idempotent_witness :
    UnchangedPage fixture_skills_page1 fixture_skills_page2 ∧
    (extract_skills fixture_skills_page1).toFinset =
      (extract_skills fixture_skills_page2).toFinset :=
  have hu : UnchangedPage fixture_skills_page1 fixture_skills_page2 :=
    ⟨rfl, fun _ => Iff.rfl,
      fun _ s1 s2 h1 h2 _ => by
        have e1 : s1 = fun _ => [" Python", "SQL "] :=
          (Option.some.inj h1).symm
        have e2 : s2 = fun _ => ["SQL ", " Python"] :=
          (Option.some.inj h2).symm
        rw [e1, e2]
        show List.Perm [" Python", "SQL "] ["SQL ", " Python"]
        decide⟩
  ⟨hu, c6_skills_idempotent fixture_skills_page1 fixture_skills_page2 hu⟩

/-- C1: with the About section entirely absent, the sync extraction pass
completes (it is a total function of the page: every block is wrapped in
its own try/except) and merely lacks the about field: introduction is not
written, while name, title, location, current company, education and
skills coincide with what the same pass extracts on any page that differs
only in its About section — the About failure never leaks into another
field.  The async variant of the same pass, however, always raises
NameError for profile_url at its final navigation statement, so there the
claimed isolation fails for every page. -/
theorem c1_about_absent_isolation (p q : SyncPage)
    (habs : p.about_section = none)
    (hname : p.name_el = q.name_el) (htitle : p.title_el = q.title_el)
    (hloc : p.location_el = q.location_el)
    (hexp : p.exp_section = q.exp_section)
    (hedu : p.edu_section = q.edu_section)
    (hsk : p.skills_section = q.skills_section) :
    ((sync_extract_profile_data p).introduction = none ∧
      (sync_extract_profile_data p).name =
        (sync_extract_profile_data q).name ∧
      (sync_extract_profile_data p).title =
        (sync_extract_profile_data q).title ∧
      (sync_extract_profile_data p).location =
        (sync_extract_profile_data q).location ∧
      (sync_extract_profile_data p).current_company =
        (sync_extract_profile_data q).current_company ∧
      (sync_extract_profile_data p).education =
        (sync_extract_profile_data q).education ∧
      (sync_extract_profile_data p).skills =
        (sync_extract_profile_data q).skills) ∧
    ∀ (d : AsyncProfileData),
      async_extract_profile_data d =
        Except.error (PyError.nameError "profile_url") := by
  refine ⟨⟨?_, ?_, ?_, ?_, ?_, ?_, ?_⟩, fun d => rfl⟩ <;>
    simp [sync_extract_profile_data, sync_name, sync_title, sync_location,
      sync_introduction, sync_current_company, sync_education, sync_skills,
      habs, hname, htitle, hloc, hexp, hedu, hsk]

theorem c1_about_absent_isolation_witness :
    fixture_page_no_about.about_section = none ∧
    (sync_extract_profile_data fixture_page_no_about).introduction = none ∧
    (sync_extract_profile_data fixture_page_no_about).name =
      (sync_extract_profile_data fixture_page_with_about).name ∧
    (sync_extract_profile_data fixture_page_no_about).skills =
      (sync_extract_profile_data fixture_page_with_about).skills ∧
    (sync_extract_profile_data fixture_page_no_about).name = some "Jane Doe" ∧
    (sync_extract_profile_data fixture_page_no_about).current_company =
      some { name := "Acme", title := "Engineer" } ∧
    (sync_extract_profile_data fixture_page_no_about).education =
      some [{ school := "MIT", degree := "BSc" }] ∧
    (sync_extract_profile_data fixture_page_no_about).skills =
      some ["Python", "SQL"] ∧
    async_extract_profile_data fixture_async_data =
      Except.error (PyError.nameError "profile_url") :=
  have h := c1_about_absent_isolation fixture_page_no_about
    fixture_page_with_about rfl rfl rfl rfl rfl rfl rfl
  ⟨rfl, h.1.1, h.1.2.1, h.1.2.2.2.2.2.2, by decide, by decide, by decide,
    by decide, h.2 fixture_async_data⟩

/-- C8: close is idempotent and never raises: each of the three close
methods is a total function of the session state (the teardown calls are
guarded and any quit exception is swallowed), running it leaves no
resource live — including when called before a successful initialize
(absent handles) or after a partial failure — and running it a second
time leaves the state of the first run unchanged. -/
theorem c8_close_idempotent (s : AsyncScraperState) (t : SyncScraperState)
    (d : Option Bool) :
    (async_close (async_close s) = async_close s ∧
      (async_close s).browser ≠ some true ∧
      (async_close s).playwright ≠ some true) ∧
    (sync_close (sync_close t) = sync_close t ∧
      (sync_close t).browser ≠ some true ∧
      (sync_close t).playwright ≠ some true) ∧
    (selenium_close (selenium_close d) = selenium_close d ∧
      selenium_close d ≠ some true) := by
  obtain ⟨b, pl⟩ := s
  obtain ⟨b2, pl2⟩ := t
  cases b <;> cases pl <;> cases b2 <;> cases pl2 <;> cases d <;>
    simp [async_close, sync_close, selenium_close]
